import Mathlib

/-!
Shallow embedding of src/tg_to_mastodon_bot.py (tianheg/tg2mastodon).

The program forwards Telegram channel posts to Mastodon.  External
effects (Telegram API, Mastodon API, filesystem, logging) are modelled
by a trace of calls plus an oracle fixing the outcome of each external
call site; the local filesystem is a list of existing paths.
-/

namespace TgToMastodon

/-- Python exceptions that can arise in the translated code.
MastodonError and TelegramError are the library error bases named in the
except clause of forward_to_mastodon; AttributeError arises from
dereferencing None; ValueError from float(); FileNotFoundError from
os.remove on a missing path. -/
inductive PyExc
  | mastodonError (s : String)
  | telegramError (s : String)
  | attributeError (s : String)
  | valueError (s : String)
  | fileNotFoundError (s : String)
deriving DecidableEq

/-- The message carried by an exception (str(e)). -/
def PyExc.msg : PyExc → String
  | .mastodonError s => s
  | .telegramError s => s
  | .attributeError s => s
  | .valueError s => s
  | .fileNotFoundError s => s

/-- Whether the except clause of forward_to_mastodon catches this
exception: the source names exactly (Mastodon.MastodonError,
telegram.error.TelegramError). -/
def PyExc.caught : PyExc → Bool
  | .mastodonError _ => true
  | .telegramError _ => true
  | _ => false

/-- Observable calls made by the handler to the outside world.
mediaDelete and statusDelete are remote calls the destination API offers
but the program never makes (used to state no-compensation properties);
logError records logger.error in the except clause. -/
inductive Call
  | statusPostText (text : String)
  | getFile (fileId : String)
  | downloadToDrive (path : String)
  | mediaPost (path : String)
  | statusPostMedia (body : String) (mediaIds : List String)
  | cleanup (path : String)
  | mediaDelete (mediaId : String)
  | statusDelete (statusId : String)
  | logError (line : String)
deriving DecidableEq

/-- telegram.PhotoSize: one size variant of a photo. -/
structure PhotoSize where
  file_id : String
deriving DecidableEq

/-- telegram.Message restricted to the fields the program reads:
text and caption are Optional[str]; photo is the size-ordered variant
tuple, empty when the post has no photo. -/
structure Message where
  text : Option String
  photo : List PhotoSize
  caption : Option String
deriving DecidableEq

/-- telegram.Update restricted to the field the program reads. -/
structure Update where
  channel_post : Option Message
deriving DecidableEq

/-- Outcome oracle for the external call sites of one handler
invocation: none means the call succeeds, some e means it raises e.
mediaPost either raises or returns the media id from the returned dict. -/
structure Oracle where
  statusPostText : Option PyExc
  getFile : Option PyExc
  downloadToDrive : Option PyExc
  mediaPost : Except PyExc String
  statusPostMedia : Option PyExc

/-- os.remove: deletes the path, raising FileNotFoundError if absent. -/
def os_remove (file_path : String) (fs : List String) : Except PyExc (List String) :=
  if file_path ∈ fs then .ok (fs.erase file_path)
  else .error (.fileNotFoundError file_path)

/-- MediaHandler.cleanup_media: remove the file only if it exists. -/
def cleanup_media (file_path : String) (fs : List String) : Except PyExc (List String) :=
  if file_path ∈ fs then os_remove file_path fs else .ok fs

/-- MastodonHandler.post_text: one status_post call with the text. -/
def post_text (o : Oracle) (text : String) : Except PyExc Unit × List Call :=
  ((match o.statusPostText with
    | some e => .error e
    | none => .ok ()),
   [Call.statusPostText text])

/-- MastodonHandler.post_media: media_post to obtain a media id, then
status_post with the caption (or empty string) referencing that id. -/
def post_media (o : Oracle) (media_path : String) (caption : Option String) :
    Except PyExc Unit × List Call :=
  match o.mediaPost with
  | .error e => (.error e, [Call.mediaPost media_path])
  | .ok mid =>
    ((match o.statusPostMedia with
      | some e => .error e
      | none => .ok ()),
     [Call.mediaPost media_path, Call.statusPostMedia (caption.getD "") [mid]])

/-- MediaHandler.download_photo: get_file then download_to_drive to the
path temp_(file_id).jpg; on success the path exists afterwards. -/
def download_photo (o : Oracle) (photo : PhotoSize) (fs : List String) :
    Except PyExc String × List Call × List String :=
  let photo_path := "temp_" ++ photo.file_id ++ ".jpg"
  match o.getFile with
  | some e => (.error e, [Call.getFile photo.file_id], fs)
  | none =>
    match o.downloadToDrive with
    | some e => (.error e, [Call.getFile photo.file_id, Call.downloadToDrive photo_path], fs)
    | none =>
      (.ok photo_path,
       [Call.getFile photo.file_id, Call.downloadToDrive photo_path],
       photo_path :: fs)

/-- The first statement group of the try block:
if message and message.text: post_text(message.text).
Python truthiness: a None message or a None or empty text skips the call. -/
def step1 (o : Oracle) (message : Option Message) : Except PyExc Unit × List Call :=
  match message with
  | none => (.ok (), [])
  | some m =>
    match m.text with
    | none => (.ok (), [])
    | some t => if t = "" then (.ok (), []) else post_text o t

/-- The try block of forward_to_mastodon: step1, then
if message.photo: (an AttributeError when message is None), pick the last
variant, download, and post_media guarded by try/finally cleanup_media. -/
def tryBody (o : Oracle) (update : Update) (fs : List String) :
    Except PyExc Unit × List Call × List String :=
  let message := update.channel_post
  match step1 o message with
  | (.error e, tr1) => (.error e, tr1, fs)
  | (.ok _, tr1) =>
    match message with
    | none => (.error (.attributeError "NoneType object has no attribute photo"), tr1, fs)
    | some m =>
      if hp : m.photo = [] then (.ok (), tr1, fs)
      else
        let photo := m.photo.getLast hp
        match download_photo o photo fs with
        | (.error e, tr2, fs1) => (.error e, tr1 ++ tr2, fs1)
        | (.ok photo_path, tr2, fs1) =>
          let pm := post_media o photo_path m.caption
          match cleanup_media photo_path fs1 with
          | .ok fs2 => (pm.1, tr1 ++ tr2 ++ pm.2 ++ [Call.cleanup photo_path], fs2)
          | .error e => (.error e, tr1 ++ tr2 ++ pm.2 ++ [Call.cleanup photo_path], fs1)

/-- TelegramMastodonBot.forward_to_mastodon: the try block wrapped by
except (Mastodon.MastodonError, telegram.error.TelegramError) which logs
and swallows; any other exception propagates (first component some e). -/
def forward_to_mastodon (o : Oracle) (update : Update) (fs : List String) :
    Option PyExc × List Call × List String :=
  match tryBody o update fs with
  | (.ok _, tr, fs') => (none, tr, fs')
  | (.error e, tr, fs') =>
    if e.caught then
      (none, tr ++ [Call.logError ("Error forwarding to Mastodon: " ++ e.msg)], fs')
    else (some e, tr, fs')

/-- The value a successful Python float() conversion yields: a finite
rational (the claims never depend on rounding to binary floating point),
or a signed infinity, or nan. -/
inductive PyFloat
  | finite (q : ℚ)
  | inf (neg : Bool)
  | nan
deriving DecidableEq

/-- Whitespace characters stripped by Python float() around the literal
(ASCII subset). -/
def isPySpace (c : Char) : Bool :=
  c == ' ' || c == '\t' || c == '\n' || c == '\r' || c == '\x0b' || c == '\x0c'

/-- Strip leading and trailing whitespace. -/
def stripPySpace (cs : List Char) : List Char :=
  ((cs.dropWhile isPySpace).reverse.dropWhile isPySpace).reverse

/-- Python 3.6 underscore rule for numeric literals: every underscore
must sit between two digits. -/
def underscoresOk : List Char → Bool
  | [] => true
  | ['_'] => false
  | [_] => true
  | '_' :: _ :: _ => false
  | a :: '_' :: rest =>
    (a.isDigit && (match rest with
      | c :: _ => c.isDigit
      | [] => false)) && underscoresOk rest
  | _ :: rest => underscoresOk rest

/-- The natural number denoted by a digit string. -/
def natOfDigits (cs : List Char) : Nat :=
  cs.foldl (fun a c => a * 10 + (c.toNat - 48)) 0

/-- Consume an optional sign; true means negative. -/
def splitSign : List Char → Bool × List Char
  | '-' :: rest => (true, rest)
  | '+' :: rest => (false, rest)
  | cs => (false, cs)

/-- Parse the optional exponent part after the mantissa; the remainder
must then be empty.  Returns the exponent (0 when absent). -/
def parseExpPart (cs : List Char) : Option ℤ :=
  match cs with
  | [] => some 0
  | c :: r1 =>
    if c == 'e' || c == 'E' then
      let sd := splitSign r1
      let dr := sd.2.span Char.isDigit
      if dr.1.isEmpty || !dr.2.isEmpty then none
      else some (if sd.1 then -(natOfDigits dr.1 : ℤ) else (natOfDigits dr.1 : ℤ))
    else none

/-- Parse an unsigned decimal mantissa: digits with an optional
fractional part, or a fractional part alone.  Returns the digits read as
one integer, the number of fractional digits, and the remainder. -/
def parseDecimal (cs : List Char) : Option ((ℕ × ℕ) × List Char) :=
  let ir := cs.span Char.isDigit
  match ir.2 with
  | '.' :: r2 =>
    let fr := r2.span Char.isDigit
    if ir.1.isEmpty && fr.1.isEmpty then none
    else some ((natOfDigits (ir.1 ++ fr.1), fr.1.length), fr.2)
  | r1 =>
    if ir.1.isEmpty then none else some ((natOfDigits ir.1, 0), r1)

/-- The rational denoted by sign, mantissa digits, fractional length and
exponent: (-1)^neg * mant * 10^(e - fracLen). -/
def decValue (neg : Bool) (mant : ℕ) (fracLen : ℕ) (e : ℤ) : ℚ :=
  let ex : ℤ := e - (fracLen : ℤ)
  let mag : ℚ :=
    if 0 ≤ ex then ((mant * 10 ^ ex.toNat : ℕ) : ℚ)
    else mkRat (Int.ofNat mant) (10 ^ (-ex).toNat)
  if neg then -mag else mag

/-- Models Python's float(str) builtin on ASCII input: optional
surrounding whitespace, the underscore rule, an optional sign, then a
decimal literal or inf, infinity, nan (case-insensitive).  Returns none
where float() raises ValueError. -/
def pyFloatOfString (s : String) : Option PyFloat :=
  let cs := stripPySpace s.data
  if !underscoresOk cs then none
  else
    let sr := splitSign (cs.filter (fun c => c != '_'))
    let low := sr.2.map Char.toLower
    if low = "inf".data || low = "infinity".data then some (.inf sr.1)
    else if low = "nan".data then some .nan
    else
      match parseDecimal sr.2 with
      | none => none
      | some (md, rest) =>
        match parseExpPart rest with
        | none => none
        | some e => some (.finite (decValue sr.1 md.1 md.2 e))

/-- Config: the four settings read from the environment. -/
structure Config where
  telegram_token : String
  mastodon_token : String
  mastodon_url : String
  polling_interval : PyFloat
deriving DecidableEq

/-- The process environment restricted to the four variables the
program reads; none models an unset variable. -/
structure Env where
  telegram_bot_token : Option String
  mastodon_access_token : Option String
  mastodon_instance_url : Option String
  polling_interval : Option String

/-- Config.from_env: os.getenv with defaults (empty string for the three
credentials and URL, the string 3600 for the polling interval), then
float() on the interval; no validation of any field.  The only failure
is the ValueError float() raises on an unparsable interval. -/
def from_env (env : Env) : Except PyExc Config :=
  match pyFloatOfString (env.polling_interval.getD "3600") with
  | none =>
    .error (.valueError ("could not convert string to float: " ++ env.polling_interval.getD "3600"))
  | some v =>
    .ok { telegram_token := env.telegram_bot_token.getD ""
          mastodon_token := env.mastodon_access_token.getD ""
          mastodon_url := env.mastodon_instance_url.getD ""
          polling_interval := v }

/-- Call classifier: the text publish call. -/
def isPublishText : Call → Bool
  | .statusPostText _ => true
  | _ => false

/-- Call classifier: the media upload call. -/
def isMediaUpload : Call → Bool
  | .mediaPost _ => true
  | _ => false

/-- Call classifier: the media status creation call. -/
def isMediaStatus : Call → Bool
  | .statusPostMedia _ _ => true
  | _ => false

/-- Call classifier: the cleanup_media (release) call. -/
def isCleanup : Call → Bool
  | .cleanup _ => true
  | _ => false

/-- Call classifier: any media-related operation (transfer, upload,
media status, release). -/
def isMediaOp : Call → Bool
  | .getFile _ => true
  | .downloadToDrive _ => true
  | .mediaPost _ => true
  | .statusPostMedia _ _ => true
  | .cleanup _ => true
  | _ => false

/-- Call classifier: a compensating delete on the destination (media or
status delete); the program never issues one. -/
def isDelete : Call → Bool
  | .mediaDelete _ => true
  | .statusDelete _ => true
  | _ => false

/-- The trace of step1 is empty or a single text publish call. -/
theorem step1_trace_shape (o : Oracle) (msg : Option Message) :
    (step1 o msg).2 = [] ∨ ∃ t, (step1 o msg).2 = [Call.statusPostText t] := by
  rcases msg with _ | m
  · exact Or.inl rfl
  · rcases h : m.text with _ | t
    · simp [step1, h]
    · by_cases ht : t = ""
      · simp [step1, h, ht]
      · exact Or.inr ⟨t, by simp [step1, h, ht, post_text]⟩

/-- The trace of post_media is the upload alone (when the upload raises)
or the upload followed by the media status call. -/
theorem post_media_trace_shape (o : Oracle) (p : String) (c : Option String) :
    (post_media o p c).2 = [Call.mediaPost p] ∨
    ∃ mid, (post_media o p c).2
      = [Call.mediaPost p, Call.statusPostMedia (c.getD "") [mid]] := by
  rcases h : o.mediaPost with e | mid
  · simp [post_media, h]
  · exact Or.inr ⟨mid, by simp [post_media, h]⟩

/-- An event with both text and a photo, for the C1 scenario. -/
def updC1 : Update := ⟨some ⟨some "hi", [⟨"p1"⟩], none⟩⟩

/-- Oracle for the C1 scenario: the text publish raises MastodonError,
every other call would succeed. -/
def oraC1 : Oracle := ⟨some (.mastodonError "boom"), none, none, .ok "m1", none⟩

/-- An all-success oracle for the C3 scenario. -/
def oraC3 : Oracle := ⟨none, none, none, .ok "m3", none⟩

/-- An event with both text and a photo, for the C10 scenario. -/
def updC10 : Update := ⟨some ⟨some "hello", [⟨"p9"⟩], some "cap"⟩⟩

/-- Oracle for the C10 scenario: the text publish succeeds, the media
download (get_file) raises TelegramError. -/
def oraC10 : Oracle := ⟨none, some (.telegramError "network down"), none, .ok "m9", none⟩

/-- C1 counterexample: for the event with text and a photo, when
publishText raises (a MastodonError), the handler's except clause
catches it at whole-handler scope and the media step is never attempted:
the trace holds only the text call and the error log, with no get_file,
no download and no media upload. -/
theorem text_failure_skips_media_step :
    forward_to_mastodon oraC1 updC1 []
      = (none, [Call.statusPostText "hi",
                Call.logError "Error forwarding to Mastodon: boom"], [])
    ∧ Call.getFile "p1" ∉ (forward_to_mastodon oraC1 updC1 []).2.1
    ∧ Call.mediaPost "temp_p1.jpg" ∉ (forward_to_mastodon oraC1 updC1 []).2.1 := by
  refine ⟨by decide, by decide, by decide⟩

/-- C3: evaluating the handler at the two edge cases.  An event that is
present with neither text nor photos is a no-op, but an absent channel
post makes the unguarded statement (if message.photo) raise an
AttributeError that the except clause does not catch, so it propagates
out of the handler. -/
theorem absent_event_raises_attribute_error :
    forward_to_mastodon oraC3 ⟨some ⟨none, [], none⟩⟩ [] = (none, [], [])
    ∧ forward_to_mastodon oraC3 ⟨none⟩ []
        = (some (.attributeError "NoneType object has no attribute photo"), [], []) := by
  refine ⟨by decide, by decide⟩

/-- C4 counterexample: with every required environment variable unset
(so every required setting is the empty string), configuration loading
succeeds and returns the empty-field Config; no ConfigurationError is
raised and nothing stops startup from proceeding to listening. -/
theorem empty_config_loads_successfully :
    from_env ⟨none, none, none, none⟩
      = .ok { telegram_token := "", mastodon_token := "", mastodon_url := ""
              polling_interval := .finite 3600 } := rfl

/-- C10: for an event with both text and a photo, when publishText
succeeds and the subsequent media download fails, the handler swallows
the error and ends with the text post already published and no media
status posted; no compensating delete of any kind appears in the trace,
so exactly one of the two intended posts remains. -/
theorem partial_publish_on_media_failure :
    forward_to_mastodon oraC10 updC10 []
      = (none, [Call.statusPostText "hello", Call.getFile "p9",
                Call.logError "Error forwarding to Mastodon: network down"], [])
    ∧ ((forward_to_mastodon oraC10 updC10 []).2.1.filter isMediaStatus = []
    ∧ (forward_to_mastodon oraC10 updC10 []).2.1.filter isDelete = []) := by
  refine ⟨by decide, by decide, by decide⟩

/-- C7: for every event with non-empty text and no photo, whatever the
outcomes of the external calls, the handler makes exactly one text
publish call carrying exactly the event's text, performs no media
operation at all, and leaves the filesystem unchanged. -/
theorem text_only_event_single_text_post (o : Oracle) (u : Update) (fs : List String)
    (m : Message) (t : String) (hu : u.channel_post = some m)
    (ht : m.text = some t) (hne : t ≠ "") (hp : m.photo = []) :
    (forward_to_mastodon o u fs).2.1.filter isPublishText = [Call.statusPostText t]
    ∧ (forward_to_mastodon o u fs).2.1.filter isMediaOp = []
    ∧ (forward_to_mastodon o u fs).2.2 = fs := by
  rcases hs : o.statusPostText with _ | e
  · simp [forward_to_mastodon, tryBody, step1, post_text, hu, ht, hne, hp, hs,
      isPublishText, isMediaOp]
  · by_cases hc : e.caught <;>
      simp [forward_to_mastodon, tryBody, step1, post_text, hu, ht, hne, hp, hs, hc,
        isPublishText, isMediaOp]

/-- Event for the C7 witness: text only. -/
def updC7 : Update := ⟨some ⟨some "hey", [], none⟩⟩

/-- All-success oracle for the C7 witness. -/
def oraC7 : Oracle := ⟨none, none, none, .ok "m7", none⟩

/-- Witness for C7 at a concrete text-only event. -/
theorem text_only_event_single_text_post_witness :
    (forward_to_mastodon oraC7 updC7 []).2.1.filter isPublishText = [Call.statusPostText "hey"]
    ∧ (forward_to_mastodon oraC7 updC7 []).2.1.filter isMediaOp = []
    ∧ (forward_to_mastodon oraC7 updC7 []).2.2 = [] :=
  text_only_event_single_text_post oraC7 updC7 [] ⟨some "hey", [], none⟩ "hey"
    rfl rfl (by decide) rfl

/-- C6: for every event with a photo and no (truthy) text, once the
transfer succeeds and the upload returns a media id, the handler makes
no text publish call, exactly one media upload — for the file downloaded
from the last entry of the size-ordered photo sequence — and exactly one
media status call whose body is the caption or the empty string when the
caption is absent; this holds whatever the outcome of the media status
call itself. -/
theorem media_only_event_single_media_post (o : Oracle) (u : Update) (fs : List String)
    (m : Message) (mid : String) (hu : u.channel_post = some m)
    (ht : m.text = none ∨ m.text = some "") (hp : m.photo ≠ [])
    (hg : o.getFile = none) (hd : o.downloadToDrive = none)
    (hm : o.mediaPost = .ok mid) :
    (forward_to_mastodon o u fs).2.1.filter isPublishText = []
    ∧ (forward_to_mastodon o u fs).2.1.filter isMediaUpload
        = [Call.mediaPost ("temp_" ++ (m.photo.getLast hp).file_id ++ ".jpg")]
    ∧ (forward_to_mastodon o u fs).2.1.filter isMediaStatus
        = [Call.statusPostMedia (m.caption.getD "") [mid]] := by
  have hcu : cleanup_media ("temp_" ++ (m.photo.getLast hp).file_id ++ ".jpg")
      (("temp_" ++ (m.photo.getLast hp).file_id ++ ".jpg") :: fs)
      = .ok fs := by
    simp [cleanup_media, os_remove]
  rcases hsm : o.statusPostMedia with _ | e
  · rcases ht with ht | ht <;>
      simp [forward_to_mastodon, tryBody, step1, download_photo, post_media, hu, ht, hp,
        hg, hd, hm, hsm, hcu, isPublishText, isMediaUpload, isMediaStatus]
  · by_cases hc : e.caught <;> rcases ht with ht | ht <;>
      simp [forward_to_mastodon, tryBody, step1, download_photo, post_media, hu, ht, hp,
        hg, hd, hm, hsm, hc, hcu, isPublishText, isMediaUpload, isMediaStatus]

/-- Event for the C6 witness: one photo with two size variants, a
caption and no text. -/
def updC6 : Update := ⟨some ⟨none, [⟨"small"⟩, ⟨"large"⟩], some "cap6"⟩⟩

/-- All-success oracle for the C6 witness. -/
def oraC6 : Oracle := ⟨none, none, none, .ok "m6", none⟩

/-- Witness for C6: the largest (last) variant is downloaded and posted
with the caption. -/
theorem media_only_event_single_media_post_witness :
    (forward_to_mastodon oraC6 updC6 []).2.1.filter isPublishText = []
    ∧ (forward_to_mastodon oraC6 updC6 []).2.1.filter isMediaUpload
        = [Call.mediaPost "temp_large.jpg"]
    ∧ (forward_to_mastodon oraC6 updC6 []).2.1.filter isMediaStatus
        = [Call.statusPostMedia "cap6" ["m6"]] :=
  media_only_event_single_media_post oraC6 updC6 [] ⟨none, [⟨"small"⟩, ⟨"large"⟩], some "cap6"⟩
    "m6" rfl (Or.inl rfl) (by decide) rfl rfl rfl

/-- C5: whenever the media step is reached (photo present, text step did
not raise) and the download succeeds, the handler releases the
downloaded path exactly once — the only cleanup call in the whole trace
is for that path — regardless of whether the subsequent publish succeeds
or raises; and release is idempotent: cleaning up a path that does not
exist is a no-op, not an error. -/
theorem download_always_released (o : Oracle) (u : Update) (fs : List String)
    (m : Message) (hu : u.channel_post = some m) (hp : m.photo ≠ [])
    (h1 : (step1 o u.channel_post).1 = .ok ())
    (hg : o.getFile = none) (hd : o.downloadToDrive = none) :
    (forward_to_mastodon o u fs).2.1.filter isCleanup
      = [Call.cleanup ("temp_" ++ (m.photo.getLast hp).file_id ++ ".jpg")]
    ∧ ∀ p fs0, p ∉ fs0 → cleanup_media p fs0 = .ok fs0 := by
  refine ⟨?_, fun p fs0 hp0 => by simp [cleanup_media, hp0]⟩
  rw [hu] at h1
  rcases hstep : step1 o (some m) with ⟨r1, tr1⟩
  have h1' : r1 = .ok () := by rw [hstep] at h1; exact h1
  subst h1'
  have htr1 : tr1.filter isCleanup = [] := by
    rcases step1_trace_shape o (some m) with h | ⟨t, h⟩ <;>
      rw [hstep] at h <;> simp_all [isCleanup]
  have hcu : cleanup_media ("temp_" ++ (m.photo.getLast hp).file_id ++ ".jpg")
      (("temp_" ++ (m.photo.getLast hp).file_id ++ ".jpg") :: fs)
      = .ok fs := by
    simp [cleanup_media, os_remove]
  rcases hm : o.mediaPost with e | mid
  · by_cases hc : e.caught <;>
      simp [forward_to_mastodon, tryBody, download_photo, post_media, hu, hstep, hp,
        hg, hd, hm, hc, hcu, htr1, isCleanup, List.filter_append]
  · rcases hsm : o.statusPostMedia with _ | e
    · simp [forward_to_mastodon, tryBody, download_photo, post_media, hu, hstep, hp,
        hg, hd, hm, hsm, hcu, htr1, isCleanup, List.filter_append]
    · by_cases hc : e.caught <;>
        simp [forward_to_mastodon, tryBody, download_photo, post_media, hu, hstep, hp,
          hg, hd, hm, hsm, hc, hcu, htr1, isCleanup, List.filter_append]

/-- Event for the C5 witness: a photo-only event. -/
def updC5 : Update := ⟨some ⟨none, [⟨"p5"⟩], some "c5"⟩⟩

/-- Oracle for the C5 witness: the download succeeds and the media
status call raises, exercising the failure path of the try/finally. -/
def oraC5 : Oracle := ⟨none, none, none, .ok "m5", some (.mastodonError "post failed")⟩

/-- Witness for C5: even though the publish raises, the downloaded file
is released exactly once; and a release of a missing path is a no-op. -/
theorem download_always_released_witness :
    (forward_to_mastodon oraC5 updC5 []).2.1.filter isCleanup = [Call.cleanup "temp_p5.jpg"]
    ∧ cleanup_media "ghost.jpg" [] = .ok [] :=
  ⟨(download_always_released oraC5 updC5 [] ⟨none, [⟨"p5"⟩], some "c5"⟩
      rfl (by decide) rfl rfl rfl).1,
   (download_always_released oraC5 updC5 [] ⟨none, [⟨"p5"⟩], some "c5"⟩
      rfl (by decide) rfl rfl rfl).2 "ghost.jpg" [] (by decide)⟩

/-- C1 amended: for an event with both (truthy) text and a photo, when
the text publish succeeds and the transfer succeeds, both destination
posts are attempted — the trace holds the text publish call and the
media upload call — whatever the outcome of the media upload and media
status calls (a media-side failure does not undo or prevent the text
call).  The converse independence does not hold: a publishText failure
aborts the event before the media step (see the counterexample). -/
theorem both_posts_attempted_when_text_succeeds (o : Oracle) (u : Update) (fs : List String)
    (m : Message) (t : String) (hu : u.channel_post = some m)
    (ht : m.text = some t) (hne : t ≠ "") (hp : m.photo ≠ [])
    (hs : o.statusPostText = none)
    (hg : o.getFile = none) (hd : o.downloadToDrive = none) :
    Call.statusPostText t ∈ (forward_to_mastodon o u fs).2.1
    ∧ Call.mediaPost ("temp_" ++ (m.photo.getLast hp).file_id ++ ".jpg")
        ∈ (forward_to_mastodon o u fs).2.1 := by
  rcases hm : o.mediaPost with e | mid
  · by_cases hc : e.caught <;>
      simp [forward_to_mastodon, tryBody, step1, post_text, download_photo, post_media,
        cleanup_media, os_remove, hu, ht, hne, hp, hs, hg, hd, hm, hc]
  · rcases hsm : o.statusPostMedia with _ | e
    · simp [forward_to_mastodon, tryBody, step1, post_text, download_photo, post_media,
        cleanup_media, os_remove, hu, ht, hne, hp, hs, hg, hd, hm, hsm]
    · by_cases hc : e.caught <;>
        simp [forward_to_mastodon, tryBody, step1, post_text, download_photo, post_media,
          cleanup_media, os_remove, hu, ht, hne, hp, hs, hg, hd, hm, hsm, hc]

/-- Event for the C1 amended witness: text plus photo. -/
def updC1w : Update := ⟨some ⟨some "hi1", [⟨"q1"⟩], none⟩⟩

/-- Oracle for the C1 amended witness: text publish and transfer
succeed, the media status call raises. -/
def oraC1w : Oracle := ⟨none, none, none, .ok "w1", some (.mastodonError "mfail")⟩

/-- Witness for the C1 amended theorem: both calls occur even though the
media status call fails. -/
theorem both_posts_attempted_witness :
    Call.statusPostText "hi1" ∈ (forward_to_mastodon oraC1w updC1w []).2.1
    ∧ Call.mediaPost "temp_q1.jpg" ∈ (forward_to_mastodon oraC1w updC1w []).2.1 :=
  both_posts_attempted_when_text_succeeds oraC1w updC1w [] ⟨some "hi1", [⟨"q1"⟩], none⟩
    "hi1" rfl rfl (by decide) (by decide) rfl rfl rfl

/-- C2 amended: the handler's except clause catches exactly the two API
error bases.  Whatever exception escapes the handler is neither a
MastodonError nor a TelegramError; and whenever the try block raises one
of those two, the handler swallows it (returns normally) and appends
exactly one error-log line. -/
theorem only_api_errors_are_caught (o : Oracle) (u : Update) (fs : List String) :
    (∀ e, (forward_to_mastodon o u fs).1 = some e → e.caught = false)
    ∧ (∀ e tr fs', tryBody o u fs = (.error e, tr, fs') → e.caught = true →
        (forward_to_mastodon o u fs).1 = none
        ∧ (forward_to_mastodon o u fs).2.1
            = tr ++ [Call.logError ("Error forwarding to Mastodon: " ++ e.msg)]) := by
  rcases htb : tryBody o u fs with ⟨r, tr0, fs0⟩
  rcases r with e0 | v
  · by_cases hc : e0.caught
    · refine ⟨fun e h => ?_, fun e tr fs' heq hce => ?_⟩
      · simp [forward_to_mastodon, htb, hc] at h
      · obtain ⟨he, htr, hfs⟩ : e0 = e ∧ tr0 = tr ∧ fs0 = fs' := by
          simpa using heq
        subst he htr hfs
        simp [forward_to_mastodon, htb, hc]
    · refine ⟨fun e h => ?_, fun e tr fs' heq hce => ?_⟩
      · have : e0 = e := by simp [forward_to_mastodon, htb, hc] at h; exact h
        subst this
        simpa using hc
      · obtain ⟨he, htr, hfs⟩ : e0 = e ∧ tr0 = tr ∧ fs0 = fs' := by
          simpa using heq
        subst he
        exact absurd hce hc
  · refine ⟨fun e h => ?_, fun e tr fs' heq hce => ?_⟩
    · simp [forward_to_mastodon, htb] at h
    · simp at heq

/-- All-success oracle for the C2 counterexample. -/
def oraC2c : Oracle := ⟨none, none, none, .ok "c2", none⟩

/-- C2 counterexample: an invocation whose update carries no channel
post (every external call would have succeeded) raises an
AttributeError at the unguarded media check, and the except clause —
which names only MastodonError and TelegramError — lets it propagate
out of the handler: the result is not a normal return and nothing is
logged. -/
theorem exception_escapes_handler :
    forward_to_mastodon oraC2c ⟨none⟩ ["keep.txt"]
      = (some (.attributeError "NoneType object has no attribute photo"), [], ["keep.txt"]) := by
  decide

/-- All-success oracle for the first half of the C2 witness. -/
def oraC2w : Oracle := ⟨none, none, none, .ok "w2", none⟩

/-- Event for the second half of the C2 witness: text only. -/
def updC2b : Update := ⟨some ⟨some "t2", [], none⟩⟩

/-- Oracle for the second half of the C2 witness: the text publish
raises a MastodonError. -/
def oraC2b : Oracle := ⟨some (.mastodonError "mx"), none, none, .ok "x", none⟩

/-- Witness for the C2 amended theorem: the AttributeError that escapes
on an absent channel post is not a caught kind, and a MastodonError
from the text publish is swallowed. -/
theorem only_api_errors_are_caught_witness :
    PyExc.caught (.attributeError "NoneType object has no attribute photo") = false
    ∧ (forward_to_mastodon oraC2b updC2b []).1 = none :=
  ⟨(only_api_errors_are_caught oraC2w ⟨none⟩ []).1
      (.attributeError "NoneType object has no attribute photo") rfl,
   ((only_api_errors_are_caught oraC2b updC2b []).2
      (.mastodonError "mx") [Call.statusPostText "t2"] [] rfl rfl).1⟩

/-- C8: every post_media invocation whose upload returns a media id
performs exactly the two remote calls in order — the upload, then the
status creation referencing the returned id with the caption (empty
string when absent) as body; when the status creation raises, the error
is the result and no compensating media delete appears in the trace. -/
theorem post_media_two_calls_no_delete (o : Oracle) (p : String) (c : Option String)
    (mid : String) (hm : o.mediaPost = .ok mid) :
    (post_media o p c).2 = [Call.mediaPost p, Call.statusPostMedia (c.getD "") [mid]]
    ∧ (∀ e, o.statusPostMedia = some e → (post_media o p c).1 = .error e)
    ∧ (post_media o p c).2.filter isDelete = [] := by
  refine ⟨by simp [post_media, hm], fun e he => by simp [post_media, hm, he], ?_⟩
  simp [post_media, hm, isDelete]

/-- Oracle for the C8 witness: the upload succeeds, the status creation
raises. -/
def oraC8 : Oracle := ⟨none, none, none, .ok "m8", some (.mastodonError "boom8")⟩

/-- Witness for C8 at a concrete upload-succeeds, post-fails scenario. -/
theorem post_media_two_calls_no_delete_witness :
    (post_media oraC8 "pic.jpg" none).2
      = [Call.mediaPost "pic.jpg", Call.statusPostMedia "" ["m8"]]
    ∧ (post_media oraC8 "pic.jpg" none).1 = .error (.mastodonError "boom8")
    ∧ (post_media oraC8 "pic.jpg" none).2.filter isDelete = [] :=
  ⟨(post_media_two_calls_no_delete oraC8 "pic.jpg" none "m8" rfl).1,
   (post_media_two_calls_no_delete oraC8 "pic.jpg" none "m8" rfl).2.1
      (.mastodonError "boom8") rfl,
   (post_media_two_calls_no_delete oraC8 "pic.jpg" none "m8" rfl).2.2⟩

/-- C9: when the polling-interval variable is set to a string float()
rejects, from_env raises a ValueError (there is no ConfigurationError
anywhere in the program, and ValueError is not one of the two API error
kinds the program ever catches); when the variable is unset, the default
3600 applies and loading succeeds. -/
theorem bad_polling_interval_raises_value_error :
    (∀ env s, env.polling_interval = some s → pyFloatOfString s = none →
      from_env env = .error (.valueError ("could not convert string to float: " ++ s)))
    ∧ (∀ t m u, from_env ⟨t, m, u, none⟩
        = .ok ⟨t.getD "", m.getD "", u.getD "", .finite 3600⟩)
    ∧ (∀ s, PyExc.caught (.valueError s) = false) := by
  refine ⟨fun env s hs hn => by simp [from_env, hs, hn], fun t m u => rfl, fun s => rfl⟩

/-- Witness for C9: float() rejects the string abc, so from_env raises
ValueError even with every other variable unset; with the interval unset
the default 3600 is used. -/
theorem bad_polling_interval_witness :
    from_env ⟨none, none, none, some "abc"⟩
      = .error (.valueError "could not convert string to float: abc")
    ∧ from_env ⟨some "tt", none, none, none⟩
        = .ok ⟨"tt", "", "", .finite 3600⟩
    ∧ PyExc.caught (.valueError "x") = false :=
  ⟨bad_polling_interval_raises_value_error.1 ⟨none, none, none, some "abc"⟩ "abc" rfl rfl,
   bad_polling_interval_raises_value_error.2.1 (some "tt") none none,
   bad_polling_interval_raises_value_error.2.2 "x"⟩

/-- C4 amended: configuration loading validates nothing about the
required settings: for any environment whose polling interval parses
(including the unset default), from_env succeeds and returns whatever
strings are present — empty ones included — so startup proceeds to
listening; the only startup failure from_env can produce is the float()
ValueError on the interval. -/
theorem from_env_accepts_empty_settings (t m u p : Option String) (q : PyFloat)
    (hq : pyFloatOfString (p.getD "3600") = some q) :
    from_env ⟨t, m, u, p⟩ = .ok ⟨t.getD "", m.getD "", u.getD "", q⟩ := by
  simp [from_env, hq]

/-- Witness for the C4 amended theorem: all three required settings set
to the empty string still load successfully. -/
theorem from_env_accepts_empty_settings_witness :
    from_env ⟨some "", some "", some "", none⟩ = .ok ⟨"", "", "", .finite 3600⟩ :=
  from_env_accepts_empty_settings (some "") (some "") (some "") none (.finite 3600) rfl

end TgToMastodon
